import Mathlib

/-!
Verification of the MCP subfinder server (Go) against its specification.

The development shallowly embeds the two core pieces of the repository:
the JSON-RPC protocol dispatcher (package `mcp` and the `mcpHandler` in
`main`) and the enumeration orchestrator (`internal/subfinder/wrapper.go`,
function `RunEnumeration`).

Modelling conventions:
- JSON values are embedded as the inductive `JVal`; JSON numbers are
  modelled as `Int` (every numeric argument of this API is an integer,
  and the handler only tests sign and truncates, so the embedding is
  faithful for the properties considered here).
- Go maps `map[string]T` decoded from JSON are association lists where a
  duplicated key keeps the last occurrence (Go's decoder semantics);
  `jLookup` implements that lookup.
- The effectful subfinder library call
  `runner.EnumerateSingleDomainWithCtx` is abstracted as a function from
  the attempt number to the result-map keys plus an optional error; only
  the key set and the error are inspected by the orchestrator.  Context
  cancellation is abstracted as a function from the attempt number to a
  Bool, read where the Go code reads `ctx.Done()`.
- Strings are compared with Go's `strings.EqualFold` modelled as
  lower-case equality (faithful for ASCII domain names), and sorted with
  `sort.Strings` modelled as lexicographic sorting.
-/

namespace MCPSubfinder

/-- JSON values, with numbers as integers (see module conventions). -/
inductive JVal where
  | null : JVal
  | bool (b : Bool) : JVal
  | num (n : Int) : JVal
  | str (s : String) : JVal
  | arr (elems : List JVal) : JVal
  | obj (fields : List (String × JVal)) : JVal

/-- Lookup in a JSON object decoded to a Go map: the last occurrence of a
duplicated key wins, as in Go's JSON decoding. -/
def jLookup (fields : List (String × JVal)) (key : String) : Option JVal :=
  (fields.reverse.find? (fun p => p.1 == key)).map (fun p => p.2)

/-- JSON-RPC request (part_004, `Request`): `id` is an opaque raw token
(`none` means the request is a notification), `params` is the raw params
value (`none` when absent). -/
structure Request where
  JSONRPC : String
  ID : Option String
  Method : String
  Params : Option JVal

/-- JSON-RPC error object (part_004, `RPCError`; the unused `Data` field
is omitted). -/
structure RPCError where
  Code : Int
  Message : String
deriving DecidableEq

/-- Result of the `initialize` method (part_004, `InitializeResult`). -/
structure InitResult where
  Name : String
  Version : String
  ProtocolVersion : String

/-- One entry of a tool-call result's `Content` array: either a
`ContentItem{Type, Text}` or a `ResourceItem{Type, MimeType, Blob}`
(part_004). -/
inductive ContentEntry where
  | item (itemType : String) (text : String) : ContentEntry
  | resource (itemType : String) (mimeType : String) (blob : String) : ContentEntry

/-- Result of the `tools.call` method (part_004, `ToolCallResult`). -/
structure ToolCallResult where
  Content : List ContentEntry
  IsError : Bool

/-- Static tool descriptor (part_004, `Tool`); the `inputSchema` is kept
as a raw JSON value. -/
structure Tool where
  Name : String
  Title : String
  Description : String
  InputSchema : JVal
  RequiresAPIKeys : Bool

/-- Result of the `tools.list` method (part_004, `ToolsListResult`). -/
structure ToolsListResult where
  Tools : List Tool

/-- The possible values of a response's `Result` field (Go `interface{}`).
-/
inductive ResultVal where
  | forInit (r : InitResult) : ResultVal
  | forToolsList (r : ToolsListResult) : ResultVal
  | forToolCall (r : ToolCallResult) : ResultVal

/-- JSON-RPC response (part_004, `Response`). -/
structure Response where
  JSONRPC : String
  ID : Option String
  Result : Option ResultVal
  Error : Option RPCError

/-- Standard JSON-RPC error codes (part_004). -/
def ParseErrorCode : Int := -32700

def InvalidRequestCode : Int := -32600

def MethodNotFoundCode : Int := -32601

def InvalidParamsCode : Int := -32602

def InternalErrorCode : Int := -32603

/-- Shared error value `ErrParse` (part_004). -/
def ErrParse : RPCError := { Code := ParseErrorCode, Message := "Parse error" }

/-- Shared error value `ErrInvalidRequest` (part_004). -/
def ErrInvalidRequest : RPCError := { Code := InvalidRequestCode, Message := "Invalid Request" }

/-- Shared error value `ErrMethodNotFound` (part_004). -/
def ErrMethodNotFound : RPCError := { Code := MethodNotFoundCode, Message := "Method not found" }

/-- Shared error value `ErrInvalidParams` (part_004). -/
def ErrInvalidParams : RPCError := { Code := InvalidParamsCode, Message := "Invalid params" }

/-- Shared error value `ErrInternal` (part_004). -/
def ErrInternal : RPCError := { Code := InternalErrorCode, Message := "Internal error" }

/-- Supported MCP protocol version (part_004). -/
def SupportedProtocolVersion : String := "0.3"

/-- Parameters of `initialize` (part_004, `InitializeParams`). -/
structure InitParams where
  ProtocolVersion : String

/-- Parameters of `tools.call` (part_004, `ToolCallParams`); the optional
base64 `binary` field is validated for type but otherwise unused by the
handler, so it is not stored. -/
structure ToolCallParams where
  Name : String
  Arguments : List (String × JVal)

/-- Decoding of the raw `params` value into `InitializeParams`, following
Go JSON semantics: a missing (`none`) raw value fails, `null` and an
object succeed (absent or null field keeps the zero value), any other
shape or a wrongly typed `protocolVersion` field fails. -/
def decodeInitParams : Option JVal → Option InitParams
  | some (JVal.obj fields) =>
      match jLookup fields "protocolVersion" with
      | none => some { ProtocolVersion := "" }
      | some JVal.null => some { ProtocolVersion := "" }
      | some (JVal.str s) => some { ProtocolVersion := s }
      | some _ => none
  | some JVal.null => some { ProtocolVersion := "" }
  | _ => none

/-- Decoding of the raw `params` value into `ToolCallParams`, following Go
JSON semantics field by field (`name` string, `arguments` object,
`binary` string); any wrongly typed field or non-object params fails. -/
def decodeToolCallParams : Option JVal → Option ToolCallParams
  | some (JVal.obj fields) =>
      let nameField : Option String :=
        match jLookup fields "name" with
        | none => some ""
        | some JVal.null => some ""
        | some (JVal.str s) => some s
        | some _ => none
      let argsField : Option (List (String × JVal)) :=
        match jLookup fields "arguments" with
        | none => some []
        | some JVal.null => some []
        | some (JVal.obj fs) => some fs
        | some _ => none
      let binaryOk : Bool :=
        match jLookup fields "binary" with
        | none => true
        | some JVal.null => true
        | some (JVal.str _) => true
        | some _ => false
      match nameField, argsField, binaryOk with
      | some n, some a, true => some { Name := n, Arguments := a }
      | _, _, _ => none
  | some JVal.null => some { Name := "", Arguments := [] }
  | _ => none

/-- Go `strings.EqualFold`, modelled as case-insensitive equality via
character-wise lower-casing (faithful for the ASCII strings handled
here). -/
def eqFold (a b : String) : Bool := a.data.map Char.toLower == b.data.map Char.toLower

/-- Configuration of the orchestrator (wrapper.go, `SubfinderConfig`). -/
structure SubfinderConfig where
  ProviderConfigPath : String
  Timeout : Int
  MaxDepth : Int
  SourcesFilter : String
  ExcludeSourcesFilter : String
  Recursive : Bool

/-- Go `sort.Strings`, modelled as lexicographic sorting. -/
def sortStrings (l : List String) : List String :=
  List.insertionSort (fun a b : String => a ≤ b) l

/-- Message of Go's `context.Canceled` error, produced by `ctx.Err()`. -/
def ctxCanceledMsg : String := "context canceled"

/-- Retry loop of `RunEnumeration` (wrapper.go lines 84-128).  The state
is the pair (result keys, enumeration error) of Go's `resultMap` and
`enumErr`; the returned `Nat` counts how many times the provider was
invoked.  The embedding is faithful to the Go source, including the
`break` on line 118, which exits only the enclosing `select` statement
and therefore does not leave the `for` loop: after the cancelled branch
runs, the loop continues with the next attempt. -/
def retryAux (provider : Nat → List String × Option String) (cancelled : Nat → Bool) :
    Nat → Nat → List String × Option String → (List String × Option String) × Nat
  | 0, _, st => (st, 0)
  | remaining + 1, attempt, _ =>
      let r := provider attempt
      if r.2 = none ∧ r.1 ≠ [] then (r, 1)
      else
        let e := if cancelled attempt then (if r.2 = none then some ctxCanceledMsg else r.2) else r.2
        let rest := retryAux provider cancelled remaining (attempt + 1) (r.1, e)
        (rest.1, rest.2 + 1)

/-- The full three-attempt retry loop (`maxRetries = 3`, attempts counted
from 1, `resultMap`/`enumErr` starting from Go zero values). -/
def retryLoop (provider : Nat → List String × Option String) (cancelled : Nat → Bool) :
    (List String × Option String) × Nat :=
  retryAux provider cancelled 3 1 ([], none)

/-- Fixed fallback list of common subdomain labels (wrapper.go line 237,
`commonPrefixes`). -/
def commonGuesses : List String :=
  ["www", "mail", "api", "dev", "blog", "shop", "app", "support", "help", "portal"]

/-- Cap on the number of frontier entries re-queried recursively
(wrapper.go line 159, `maxSubdomainsToProcess`). -/
def maxSubdomainsToProcess : Nat := 10

/-- Merging of one recursive result key into the accumulated set
(wrapper.go lines 214-223): keys case-insensitively equal to the probed
subdomain or already present are skipped. -/
def insertRec (probe : String) (acc : List String) (k : String) : List String :=
  if eqFold k probe then acc else if acc.contains k then acc else acc ++ [k]

/-- Merging of all keys of one recursive probe's result map. -/
def mergeRecResults (probe : String) (acc : List String) (ks : List String) : List String :=
  ks.foldl (insertRec probe) acc

/-- One iteration of the recursive loop (wrapper.go lines 191-224): a
probe whose enumeration fails (`recErr != nil`, modelled as `none`) is
skipped and the loop continues. -/
def recursiveStep (recProvider : String → Option (List String))
    (acc : List String) (probe : String) : List String :=
  match recProvider probe with
  | none => acc
  | some ks => mergeRecResults probe acc ks

/-- Recursive expansion pass (wrapper.go lines 156-232): `allSubdomains`
starts as the set of all frontier entries, only the first
`maxSubdomainsToProcess` entries are re-queried (the loop breaks at
`i >= maxSubdomainsToProcess`), and the accumulated set is re-sorted.
The slice reconstruction on lines 164-165 rebuilds the same list and is
a no-op.  A failure to build the recursive runner skips all probes but
still rebuilds and re-sorts the same set, which yields the same list, so
runner construction is not modelled separately. -/
def recursiveExpand (recProvider : String → Option (List String))
    (frontier : List String) : List String :=
  sortStrings ((frontier.take maxSubdomainsToProcess).foldl (recursiveStep recProvider) frontier)

/-- Timeout normalization at the top of `RunEnumeration` (wrapper.go
lines 28-30). -/
def effectiveTimeout (t : Int) : Int := if t ≤ 0 then 120 else t

/-- Halved, 30-floored timeout used for recursive probes (wrapper.go
lines 178-181); Go integer division truncates toward zero, as `Int.div`
does via `/` on `Int`. -/
def recursiveTimeoutOf (t : Int) : Int := if t / 2 < 30 then 30 else t / 2

/-- The enumeration orchestrator `RunEnumeration` (wrapper.go lines
27-271).  The effectful subfinder calls are abstracted: `provider` maps
the attempt number to the keys of the returned result map plus the
enumeration error of that attempt, `recProvider` maps a probed subdomain
to its recursive result keys (`none` for a failed probe), and
`cancelled` tells whether `ctx.Done()` is closed when the select after a
given attempt runs.  Runner construction, logging, source statistics and
the output buffer do not affect the returned value and are absorbed by
the abstraction; the runner options (timeout, source filters) are
consumed by the abstract provider. -/
def RunEnumeration (provider : Nat → List String × Option String)
    (recProvider : String → Option (List String)) (cancelled : Nat → Bool)
    (domain : String) (config : SubfinderConfig) : Except String (List String) :=
  let res := retryLoop provider cancelled
  match res.1.2 with
  | some e => Except.error ("enumeration error after 3 attempts: " ++ e)
  | none =>
      let subdomains := sortStrings (res.1.1.filter (fun s => !eqFold s domain))
      let subdomains :=
        if config.Recursive = true ∧ subdomains ≠ [] ∧ config.MaxDepth > 1 then
          recursiveExpand recProvider subdomains
        else subdomains
      let subdomains :=
        if subdomains = [] then commonGuesses.map (fun p => p ++ "." ++ domain)
        else subdomains
      Except.ok subdomains

/-- UTF-8 bytes of one character, mirroring Go's `[]byte(string)`
conversion used before base64 encoding. -/
def charUtf8 (c : Char) : List Nat :=
  let n := c.toNat
  if n < 128 then [n]
  else if n < 2048 then [192 + n / 64, 128 + n % 64]
  else if n < 65536 then [224 + n / 4096, 128 + n / 64 % 64, 128 + n % 64]
  else [240 + n / 262144, 128 + n / 4096 % 64, 128 + n / 64 % 64, 128 + n % 64]

/-- UTF-8 byte sequence of a string. -/
def utf8Bytes (s : String) : List Nat :=
  s.data.foldr (fun c acc => charUtf8 c ++ acc) []

/-- Standard base64 alphabet. -/
def base64Alphabet : List Char :=
  "ABCDEFGHIJKLMNOPQRSTUVWXYZabcdefghijklmnopqrstuvwxyz0123456789+/".data

/-- Character for one six-bit group. -/
def sextetChar (n : Nat) : Char := base64Alphabet.getD n '='

/-- Standard base64 encoding of a byte list with `=` padding, mirroring
Go's `base64.StdEncoding.EncodeToString`. -/
def base64EncodeBytes : List Nat → List Char
  | [] => []
  | [a] => [sextetChar (a / 4), sextetChar (a % 4 * 16), '=', '=']
  | [a, b] => [sextetChar (a / 4), sextetChar (a % 4 * 16 + b / 16), sextetChar (b % 16 * 4), '=']
  | a :: b :: c :: rest =>
      sextetChar (a / 4) :: sextetChar (a % 4 * 16 + b / 16) ::
        sextetChar (b % 16 * 4 + c / 64) :: sextetChar (c % 64) :: base64EncodeBytes rest

/-- Base64 encoding of a string's UTF-8 bytes. -/
def base64Encode (s : String) : String :=
  String.mk (base64EncodeBytes (utf8Bytes s))

/-- Optional-argument extraction of the tools.call handler (part_003,
lines 147-202): defaults are timeout 60, maxDepth 1, empty filters,
recursive false; a present argument replaces the default only when it
has the right type and is in range (positive number, non-empty string);
otherwise the default is kept. -/
def buildConfig (providerConfigPath : String) (args : List (String × JVal)) : SubfinderConfig :=
  let c : SubfinderConfig :=
    { ProviderConfigPath := providerConfigPath, Timeout := 60, MaxDepth := 1,
      SourcesFilter := "", ExcludeSourcesFilter := "", Recursive := false }
  let c := match jLookup args "timeout" with
    | some (JVal.num t) => if 0 < t then { c with Timeout := t } else c
    | _ => c
  let c := match jLookup args "maxDepth" with
    | some (JVal.num m) => if 0 < m then { c with MaxDepth := m } else c
    | _ => c
  let c := match jLookup args "sourcesFilter" with
    | some (JVal.str s) => if s ≠ "" then { c with SourcesFilter := s } else c
    | _ => c
  let c := match jLookup args "excludeSourcesFilter" with
    | some (JVal.str s) => if s ≠ "" then { c with ExcludeSourcesFilter := s } else c
    | _ => c
  let c := match jLookup args "recursive" with
    | some (JVal.bool b) => { c with Recursive := b }
    | _ => c
  c

/-- Handler for initialize requests (part_003, `HandleInitialize`, lines
14-48); the Go identifier is shortened here. -/
def HandleInit (req : Request) : Response :=
  match decodeInitParams req.Params with
  | none => { JSONRPC := "2.0", ID := req.ID, Result := none, Error := some ErrParse }
  | some params =>
      if params.ProtocolVersion ≠ SupportedProtocolVersion then
        { JSONRPC := "2.0", ID := req.ID, Result := none,
          Error := some (RPCError.mk InvalidParamsCode
            ("Unsupported protocol version: " ++ params.ProtocolVersion ++
              ". Server supports: " ++ SupportedProtocolVersion)) }
      else
        { JSONRPC := "2.0", ID := req.ID,
          Result := some (ResultVal.forInit
            { Name := "MCP Subfinder Server", Version := "1.0.0",
              ProtocolVersion := SupportedProtocolVersion }),
          Error := none }

/-- The static descriptor of the one exposed tool (part_003, lines
52-91). -/
def subdomainTool : Tool :=
  { Name := "enumerateSubdomains"
    Title := "Enumerate Subdomains"
    Description := "Discovers subdomains for a given domain using the subfinder tool"
    InputSchema := JVal.obj
      [("type", JVal.str "object"),
       ("properties", JVal.obj
         [("domain", JVal.obj
            [("type", JVal.str "string"),
             ("description", JVal.str "The base domain to enumerate subdomains for (e.g., example.com)")]),
          ("timeout", JVal.obj
            [("type", JVal.str "integer"),
             ("description", JVal.str "Maximum time in seconds to run enumeration (default: 60)"),
             ("default", JVal.num 60)]),
          ("maxDepth", JVal.obj
            [("type", JVal.str "integer"),
             ("description", JVal.str "Maximum depth to explore for subdomain enumeration (default: 1)"),
             ("default", JVal.num 1)]),
          ("sourcesFilter", JVal.obj
            [("type", JVal.str "string"),
             ("description", JVal.str "Comma-separated list of sources to use (default: all sources)")]),
          ("excludeSourcesFilter", JVal.obj
            [("type", JVal.str "string"),
             ("description", JVal.str "Comma-separated list of sources to exclude")]),
          ("recursive", JVal.obj
            [("type", JVal.str "boolean"),
             ("description", JVal.str "Enable recursive subdomain discovery (default: false)"),
             ("default", JVal.bool false)])]),
       ("required", JVal.arr [JVal.str "domain"])]
    RequiresAPIKeys := true }

/-- Handler for tools.list requests (part_003, lines 50-101). -/
def HandleToolsList (req : Request) : Response :=
  { JSONRPC := "2.0", ID := req.ID,
    Result := some (ResultVal.forToolsList { Tools := [subdomainTool] }),
    Error := none }

/-- Handler for tools.call requests (part_003, lines 103-254).  The
invocation of `subfinder.RunEnumeration` on line 206 is abstracted as
the `runEnum` argument, so handler-level properties hold for any
enumeration outcome; the orchestrator itself is modelled above as
`RunEnumeration`. -/
def HandleToolsCall (runEnum : String → SubfinderConfig → Except String (List String))
    (providerConfigPath : String) (req : Request) : Response :=
  match decodeToolCallParams req.Params with
  | none => { JSONRPC := "2.0", ID := req.ID, Result := none, Error := some ErrParse }
  | some params =>
      if params.Name ≠ "enumerateSubdomains" then
        { JSONRPC := "2.0", ID := req.ID, Result := none, Error := some ErrMethodNotFound }
      else
        match jLookup params.Arguments "domain" with
        | some (JVal.str domain) =>
            if domain = "" then
              { JSONRPC := "2.0", ID := req.ID, Result := none, Error := some ErrInvalidParams }
            else
              match runEnum domain (buildConfig providerConfigPath params.Arguments) with
              | Except.error e =>
                  { JSONRPC := "2.0", ID := req.ID,
                    Result := some (ResultVal.forToolCall
                      { Content := [ContentEntry.item "text" ("Subdomain enumeration failed: " ++ e)],
                        IsError := true }),
                    Error := none }
              | Except.ok subdomains =>
                  { JSONRPC := "2.0", ID := req.ID,
                    Result := some (ResultVal.forToolCall
                      { Content :=
                          [ContentEntry.item "text"
                             ("Successfully enumerated " ++ toString subdomains.length ++
                               " subdomains for " ++ domain),
                           ContentEntry.resource "resource" "text/plain"
                             (base64Encode
                               ("Found " ++ toString subdomains.length ++ " subdomains for " ++
                                 domain ++ ":\n\n" ++ String.intercalate "\n" subdomains))],
                        IsError := false }),
                    Error := none }
        | _ => { JSONRPC := "2.0", ID := req.ID, Result := none, Error := some ErrInvalidParams }

/-- Routing of one JSON-RPC request (part_003, `ProcessSingleRequest`,
lines 256-285). -/
def ProcessSingleRequest (runEnum : String → SubfinderConfig → Except String (List String))
    (providerConfigPath : String) (req0 : Request) : Response :=
  let req := if req0.JSONRPC == "" then { req0 with JSONRPC := "2.0" } else req0
  if req.Method == "initialize" then HandleInit req
  else if req.Method == "tools.list" then HandleToolsList req
  else if req.Method == "tools.call" then HandleToolsCall runEnum providerConfigPath req
  else if req.ID.isNone then { JSONRPC := "", ID := none, Result := none, Error := none }
  else { JSONRPC := "2.0", ID := req.ID, Result := none, Error := some ErrMethodNotFound }

/-- Batch processing in `mcpHandler` (part_005, lines 166-177): each
request is processed independently and a response is appended to the
batch response array only when `resp.ID != nil || resp.Error != nil`. -/
def processBatch (runEnum : String → SubfinderConfig → Except String (List String))
    (providerConfigPath : String) (reqs : List Request) : List Response :=
  (reqs.map (ProcessSingleRequest runEnum providerConfigPath)).filter
    (fun r => r.ID.isSome || r.Error.isSome)

/-- Shape detection in `mcpHandler` (part_005, line 157): the body is
treated as a batch exactly when `len(body) > 0 && body[0] == '['` — the
literal first byte is inspected, with no whitespace skipping. -/
def treatsAsBatch (body : List Char) : Bool :=
  match body with
  | [] => false
  | c :: _ => c == '['

/-- JSON whitespace bytes. -/
def isJsonWs (c : Char) : Bool := c == ' ' || c == '\t' || c == '\n' || c == '\r'

/-- Modelled from the spec: shape detection as the spec words it, a
payload whose first non-whitespace byte is the opening bracket is a
batch.  Written only for comparison with `treatsAsBatch`, the embedding
of the code. -/
def specBatchShape (body : List Char) : Bool :=
  match body.dropWhile isJsonWs with
  | [] => false
  | c :: _ => c == '['

/-- Go contexts, embedded as their parent chain: every non-background
context records an identity (distinguishing separately created
contexts), its parent, and its own deadline budget. -/
inductive GoContext where
  | background : GoContext
  | withTimeout (id : Nat) (parent : GoContext) (timeoutSeconds : Int) : GoContext
deriving DecidableEq

/-- Ancestor chain of a context. -/
def GoContext.ancestors : GoContext → List GoContext
  | GoContext.background => []
  | GoContext.withTimeout _ p _ => p :: p.ancestors

/-- Cancellation propagation: a context is cancelled under a set of
directly-cancelled contexts (deadline fired or cancel called) exactly
when it or one of its ancestors is directly cancelled. -/
def cancelledUnder (direct : GoContext → Bool) (c : GoContext) : Bool :=
  direct c || c.ancestors.any direct

/-- Context created for one recursive probe (wrapper.go lines 198-199):
`context.WithTimeout(context.Background(), recursiveTimeout)` — derived
from the background context, not from the caller's context. -/
def mkRecursiveProbeCtx (id : Nat) (recursiveTimeout : Int) : GoContext :=
  GoContext.withTimeout id GoContext.background recursiveTimeout

/-- Helper: with a provider that keeps returning an empty result map with
no error and a never-cancelled context, the retry loop runs through all
remaining attempts and ends with an empty result and no error. -/
theorem retryAux_empty (provider : Nat → List String × Option String) (cancelled : Nat → Bool)
    (hp : ∀ n, provider n = ([], none)) (hc : ∀ n, cancelled n = false) :
    ∀ rem a, retryAux provider cancelled rem a ([], none) = (([], none), rem) := by
  intro rem
  induction rem with
  | zero => intro a; rfl
  | succ k ih => intro a; simp [retryAux, hp a, hc a, ih (a + 1)]

/-- Helper: the initialize handler echoes the request id in every branch.
-/
theorem HandleInit_id (req : Request) : (HandleInit req).ID = req.ID := by
  unfold HandleInit
  split
  · rfl
  · split <;> rfl

/-- Helper: the tools.call handler echoes the request id in every branch.
-/
theorem HandleToolsCall_id (runEnum : String → SubfinderConfig → Except String (List String))
    (pcp : String) (req : Request) : (HandleToolsCall runEnum pcp req).ID = req.ID := by
  unfold HandleToolsCall
  repeat' split <;> try rfl

/-- Helper: request routing echoes the request id (for an unknown-method
notification the produced empty response also has no id). -/
theorem ProcessSingleRequest_id (runEnum : String → SubfinderConfig → Except String (List String))
    (pcp : String) (req : Request) : (ProcessSingleRequest runEnum pcp req).ID = req.ID := by
  have hcore : ∀ r : Request,
      (if r.Method == "initialize" then HandleInit r
       else if r.Method == "tools.list" then HandleToolsList r
       else if r.Method == "tools.call" then HandleToolsCall runEnum pcp r
       else if r.ID.isNone then { JSONRPC := "", ID := none, Result := none, Error := none }
       else { JSONRPC := "2.0", ID := r.ID, Result := none, Error := some ErrMethodNotFound }).ID
        = r.ID := by
    intro r
    split
    · exact HandleInit_id r
    · split
      · rfl
      · split
        · exact HandleToolsCall_id runEnum pcp r
        · split
          · next h => simp [Option.isNone_iff_eq_none.mp h]
          · rfl
  unfold ProcessSingleRequest
  cases hj : req.JSONRPC == ""
  · simpa [hj] using hcore req
  · simpa [hj] using hcore { req with JSONRPC := "2.0" }

/-- Helper: the accumulated set only grows when one recursive key is
merged. -/
theorem acc_sub_insertRec (p k : String) (acc : List String) : acc ⊆ insertRec p acc k := by
  unfold insertRec
  split
  · exact fun x hx => hx
  · split
    · exact fun x hx => hx
    · exact List.subset_append_left acc [k]

/-- Helper: the accumulated set only grows when one probe's keys are
merged. -/
theorem acc_sub_merge (p : String) (ks : List String) :
    ∀ acc : List String, acc ⊆ mergeRecResults p acc ks := by
  induction ks with
  | nil => exact fun acc x hx => hx
  | cons k ks ih =>
      intro acc
      have h1 : acc ⊆ insertRec p acc k := acc_sub_insertRec p k acc
      have h2 : insertRec p acc k ⊆ mergeRecResults p (insertRec p acc k) ks := ih _
      have h3 : mergeRecResults p acc (k :: ks) = mergeRecResults p (insertRec p acc k) ks := rfl
      rw [h3]
      exact fun x hx => h2 (h1 hx)

/-- Helper: the accumulated set only grows across one loop iteration. -/
theorem acc_sub_step (rec : String → Option (List String)) (acc : List String) (probe : String) :
    acc ⊆ recursiveStep rec acc probe := by
  unfold recursiveStep
  split
  · exact fun x hx => hx
  · exact acc_sub_merge probe _ acc

/-- Helper: the accumulated set only grows across the whole probe loop.
-/
theorem acc_sub_foldl (rec : String → Option (List String)) (l : List String) :
    ∀ acc : List String, acc ⊆ l.foldl (recursiveStep rec) acc := by
  induction l with
  | nil => exact fun acc x hx => hx
  | cons a t ih =>
      intro acc
      simp only [List.foldl_cons]
      exact fun x hx => ih _ (acc_sub_step rec acc a hx)

/-- Helper: the probe loop only consults the recursive provider on the
probed entries, so two providers agreeing there fold identically. -/
theorem foldl_rec_congr (recA recB : String → Option (List String)) :
    ∀ (l : List String) (acc : List String), (∀ s ∈ l, recA s = recB s) →
      l.foldl (recursiveStep recA) acc = l.foldl (recursiveStep recB) acc := by
  intro l
  induction l with
  | nil => intro acc _; rfl
  | cons a t ih =>
      intro acc h
      simp only [List.foldl_cons]
      rw [show recursiveStep recA acc a = recursiveStep recB acc a by
            unfold recursiveStep; rw [h a (List.mem_cons_self a t)]]
      exact ih _ (fun s hs => h s (List.mem_cons_of_mem a hs))

/-- C1: for every tools.call request with a valid domain whose
enumeration fails, the handler's response carries no RPC-level error: the
result is a tool-call result with the error flag set containing exactly
one text content item describing the failure, while the outer JSON-RPC
envelope reports success. -/
theorem c1_enum_failure_flagged_tool_result
    (runEnum : String → SubfinderConfig → Except String (List String))
    (pcp : String) (req : Request) (params : ToolCallParams) (domain e : String)
    (hdec : decodeToolCallParams req.Params = some params)
    (hname : params.Name = "enumerateSubdomains")
    (hdom : jLookup params.Arguments "domain" = some (JVal.str domain))
    (hne : domain ≠ "")
    (henum : runEnum domain (buildConfig pcp params.Arguments) = Except.error e) :
    HandleToolsCall runEnum pcp req =
      { JSONRPC := "2.0", ID := req.ID,
        Result := some (ResultVal.forToolCall
          { Content := [ContentEntry.item "text" ("Subdomain enumeration failed: " ++ e)],
            IsError := true }),
        Error := none } := by
  simp [HandleToolsCall, hdec, hname, hdom, hne, henum]

/-- Concrete tools.call request used by the C1 witness. -/
def c1ExampleReq : Request :=
  { JSONRPC := "2.0", ID := some "7", Method := "tools.call",
    Params := some (JVal.obj
      [("name", JVal.str "enumerateSubdomains"),
       ("arguments", JVal.obj [("domain", JVal.str "example.com")])]) }

/-- Witness for C1 at a concrete failing enumeration. -/
theorem c1_witness :
    HandleToolsCall (fun _ _ => Except.error "boom") "" c1ExampleReq =
      { JSONRPC := "2.0", ID := some "7",
        Result := some (ResultVal.forToolCall
          { Content := [ContentEntry.item "text" "Subdomain enumeration failed: boom"],
            IsError := true }),
        Error := none } :=
  c1_enum_failure_flagged_tool_result (fun _ _ => Except.error "boom") "" c1ExampleReq
    { Name := "enumerateSubdomains", Arguments := [("domain", JVal.str "example.com")] }
    "example.com" "boom" rfl rfl rfl (by decide) rfl

/-- C2 (code bug): with the context cancelled before the first attempt
and a provider that promptly returns an empty result with no error, the
retry loop still invokes the provider on all three attempts — the `break`
on wrapper.go line 118 exits only the `select` statement, not the `for`
loop, contradicting the adjacent log message that retries are stopped.
The surfaced error is the cancellation error, as the claim says, but the
loop does not stop after the first attempt. -/
theorem c2_cancelled_context_still_retries :
    (retryLoop (fun _ => ([], none)) (fun _ => true)).2 = 3 ∧
    (retryLoop (fun _ => ([], none)) (fun _ => true)).1 = ([], some ctxCanceledMsg) ∧
    RunEnumeration (fun _ => ([], none)) (fun _ => none) (fun _ => true) "example.com"
        (SubfinderConfig.mk "" 60 1 "" "" false) =
      Except.error ("enumeration error after 3 attempts: " ++ ctxCanceledMsg) :=
  ⟨rfl, rfl, rfl⟩

/-- C3 counterexample: when every attempt yields no results, the
orchestrator returns the fixed suggestion list in its fixed order, which
is not lexicographically sorted ("www.example.com" precedes
"mail.example.com"), contradicting the claim that the returned list is
always sorted. -/
theorem c3_counterexample :
    RunEnumeration (fun _ => ([], none)) (fun _ => none) (fun _ => false) "example.com"
        (SubfinderConfig.mk "" 60 1 "" "" false) =
      Except.ok
        ["www.example.com", "mail.example.com", "api.example.com", "dev.example.com",
         "blog.example.com", "shop.example.com", "app.example.com", "support.example.com",
         "help.example.com", "portal.example.com"] ∧
    ¬ List.Sorted (fun a b : String => a ≤ b)
        ["www.example.com", "mail.example.com", "api.example.com", "dev.example.com",
         "blog.example.com", "shop.example.com", "app.example.com", "support.example.com",
         "help.example.com", "portal.example.com"] := by
  constructor
  · rfl
  · intro hs
    have h2 := List.rel_of_sorted_cons hs "mail.example.com" (by simp)
    exact absurd h2 (not_le.mpr (by rw [String.lt_iff_toList_lt]; decide))

/-- C3 amended: on the non-recursive path, when the retry loop ends
without error, its result keys are pairwise case-insensitively distinct,
and at least one key differs case-insensitively from the queried domain,
the orchestrator returns exactly the sorted filtered key list, which is
lexicographically sorted, has pairwise case-insensitively distinct
entries, and never contains the queried domain (case-insensitively). -/
theorem c3_amended_nonrecursive_sorted_unique (provider : Nat → List String × Option String)
    (recProvider : String → Option (List String)) (cancelled : Nat → Bool)
    (domain : String) (config : SubfinderConfig)
    (hrec : config.Recursive = false)
    (herr : (retryLoop provider cancelled).1.2 = none)
    (hdist : (retryLoop provider cancelled).1.1.Pairwise (fun a b => eqFold a b = false))
    (hsome : (retryLoop provider cancelled).1.1.filter (fun s => !eqFold s domain) ≠ []) :
    RunEnumeration provider recProvider cancelled domain config =
      Except.ok (sortStrings ((retryLoop provider cancelled).1.1.filter (fun s => !eqFold s domain))) ∧
    List.Sorted (fun a b : String => a ≤ b)
      (sortStrings ((retryLoop provider cancelled).1.1.filter (fun s => !eqFold s domain))) ∧
    (sortStrings ((retryLoop provider cancelled).1.1.filter (fun s => !eqFold s domain))).Pairwise
      (fun a b => eqFold a b = false) ∧
    ∀ s ∈ sortStrings ((retryLoop provider cancelled).1.1.filter (fun s => !eqFold s domain)),
      eqFold s domain = false := by
  have hperm : ∀ l : List String, sortStrings l |>.Perm l := fun l => List.perm_insertionSort _ l
  have hsym : Symmetric (fun a b : String => eqFold a b = false) := by
    intro a b h
    simp only [eqFold, beq_eq_false_iff_ne, ne_eq] at h ⊢
    exact fun e => h e.symm
  refine ⟨?_, ?_, ?_, ?_⟩
  · have hne : sortStrings ((retryLoop provider cancelled).1.1.filter (fun s => !eqFold s domain)) ≠ [] := by
      intro h0
      apply hsome
      have hp2 : ((retryLoop provider cancelled).1.1.filter (fun s => !eqFold s domain)).Perm [] :=
        h0 ▸ (hperm _).symm
      exact hp2.eq_nil
    simp [RunEnumeration, herr, hrec, hne]
  · exact List.sorted_insertionSort _ _
  · exact ((hperm _).pairwise_iff (fun h => hsym h)).mpr (hdist.filter _)
  · intro s hsmem
    have hmem : s ∈ (retryLoop provider cancelled).1.1.filter (fun s => !eqFold s domain) :=
      (hperm _).mem_iff.mp hsmem
    have hps := List.of_mem_filter hmem
    simpa using hps

/-- Witness for the amended C3 at a concrete provider whose first attempt
yields two genuine subdomains plus a case variant of the root domain. -/
theorem c3_witness :
    RunEnumeration (fun _ => (["b.example.com", "a.example.com", "EXAMPLE.com"], none))
        (fun _ => none) (fun _ => false) "example.com" (SubfinderConfig.mk "" 60 1 "" "" false) =
      Except.ok (sortStrings (((retryLoop (fun _ => (["b.example.com", "a.example.com", "EXAMPLE.com"], none))
        (fun _ => false)).1.1).filter (fun s => !eqFold s "example.com"))) ∧
    List.Sorted (fun a b : String => a ≤ b)
      (sortStrings (((retryLoop (fun _ => (["b.example.com", "a.example.com", "EXAMPLE.com"], none))
        (fun _ => false)).1.1).filter (fun s => !eqFold s "example.com"))) ∧
    (sortStrings (((retryLoop (fun _ => (["b.example.com", "a.example.com", "EXAMPLE.com"], none))
        (fun _ => false)).1.1).filter (fun s => !eqFold s "example.com"))).Pairwise
      (fun a b => eqFold a b = false) ∧
    ∀ s ∈ sortStrings (((retryLoop (fun _ => (["b.example.com", "a.example.com", "EXAMPLE.com"], none))
        (fun _ => false)).1.1).filter (fun s => !eqFold s "example.com")),
      eqFold s "example.com" = false :=
  c3_amended_nonrecursive_sorted_unique
    (fun _ => (["b.example.com", "a.example.com", "EXAMPLE.com"], none)) (fun _ => none)
    (fun _ => false) "example.com" (SubfinderConfig.mk "" 60 1 "" "" false)
    rfl rfl (by decide) (by decide)

/-- C4: if the provider returns zero results on every retry attempt and
the context is never cancelled, the orchestrator returns, with no error,
exactly the fixed 10-entry suggestion list obtained by prefixing each
common label to the queried domain, in place of an empty list. -/
theorem c4_empty_results_fallback_list (provider : Nat → List String × Option String)
    (recProvider : String → Option (List String)) (cancelled : Nat → Bool)
    (domain : String) (config : SubfinderConfig)
    (hp : ∀ n, provider n = ([], none)) (hc : ∀ n, cancelled n = false) :
    RunEnumeration provider recProvider cancelled domain config =
      Except.ok (commonGuesses.map (fun p => p ++ "." ++ domain)) := by
  have h := retryAux_empty provider cancelled hp hc 3 1
  simp [RunEnumeration, retryLoop, h, sortStrings, List.insertionSort]

/-- Witness for C4 at a concrete always-empty provider. -/
theorem c4_witness :
    RunEnumeration (fun _ => ([], none)) (fun _ => none) (fun _ => false) "example.org"
        (SubfinderConfig.mk "" 60 1 "" "" false) =
      Except.ok (commonGuesses.map (fun p => p ++ "." ++ "example.org")) :=
  c4_empty_results_fallback_list (fun _ => ([], none)) (fun _ => none) (fun _ => false)
    "example.org" (SubfinderConfig.mk "" 60 1 "" "" false) (fun _ => rfl) (fun _ => rfl)

/-- Notification used by the C5 counterexample: an initialize
notification (no id) whose protocol version is unsupported. -/
def c5NotifReq : Request :=
  { JSONRPC := "2.0", ID := none, Method := "initialize",
    Params := some (JVal.obj [("protocolVersion", JVal.str "0.2")]) }

/-- C5 counterexample: a batch containing only an id-less initialize
notification with a bad protocol version produces a non-empty batch
response array (the error-bearing entry is kept by the filter), and a
single id-less tools.list notification produces a response body carrying
a result — both contradicting the claim that requests without an id
never produce a response body. -/
theorem c5_counterexample :
    processBatch (fun _ _ => Except.ok []) "" [c5NotifReq] =
      [{ JSONRPC := "2.0", ID := none, Result := none,
         Error := some (RPCError.mk InvalidParamsCode
           "Unsupported protocol version: 0.2. Server supports: 0.3") }] ∧
    (processBatch (fun _ _ => Except.ok []) "" [c5NotifReq]).length = 1 ∧
    (ProcessSingleRequest (fun _ _ => Except.ok []) ""
        (Request.mk "2.0" none "tools.list" none)).Result.isSome = true :=
  ⟨rfl, rfl, rfl⟩

/-- C5 amended: a notification's response always carries no id, and the
batch response array omits its entry exactly when processing it produced
no error; a single request always produces a response value, even for
notifications. -/
theorem c5_amended_notification_behavior
    (runEnum : String → SubfinderConfig → Except String (List String))
    (pcp : String) (req : Request) (hid : req.ID = none) :
    (ProcessSingleRequest runEnum pcp req).ID = none ∧
    (processBatch runEnum pcp [req] = [] ↔ (ProcessSingleRequest runEnum pcp req).Error = none) := by
  have hidr : (ProcessSingleRequest runEnum pcp req).ID = none := by
    rw [ProcessSingleRequest_id, hid]
  refine ⟨hidr, ?_⟩
  cases herr : (ProcessSingleRequest runEnum pcp req).Error <;>
    simp [processBatch, List.filter_cons, hidr, herr]

/-- Witness for the amended C5 at a concrete tools.list notification. -/
theorem c5_witness :
    (ProcessSingleRequest (fun _ _ => Except.error "e") ""
        (Request.mk "2.0" none "tools.list" none)).ID = none ∧
    (processBatch (fun _ _ => Except.error "e") "" [Request.mk "2.0" none "tools.list" none] = [] ↔
      (ProcessSingleRequest (fun _ _ => Except.error "e") ""
        (Request.mk "2.0" none "tools.list" none)).Error = none) :=
  c5_amended_notification_behavior (fun _ _ => Except.error "e") ""
    (Request.mk "2.0" none "tools.list" none) rfl

/-- C6 counterexample: a payload whose first byte is a space followed by
an opening bracket is treated as a single request by the code, while the
claim (first non-whitespace byte) calls it a batch. -/
theorem c6_counterexample :
    treatsAsBatch (" []".data) = false ∧ specBatchShape (" []".data) = true :=
  ⟨rfl, rfl⟩

/-- C6 amended: the dispatcher treats a payload as a batch exactly when
its literal first byte is the opening bracket; leading whitespace before
the bracket yields single-request treatment. -/
theorem c6_amended_first_byte_only :
    ∀ body : List Char, treatsAsBatch body = true ↔ body.head? = some '[' := by
  intro body
  cases body with
  | nil => simp [treatsAsBatch]
  | cons c rest => simp [treatsAsBatch]

/-- C7: in a recursive expansion pass, only the first 10 frontier entries
are re-queried (the result depends only on the recursive provider's
values on those entries), and every frontier entry — in particular each
one beyond the cap — still appears in the final result list. -/
theorem c7_frontier_cap_and_carry_through (recA recB : String → Option (List String))
    (frontier : List String) :
    ((∀ s ∈ frontier.take maxSubdomainsToProcess, recA s = recB s) →
      recursiveExpand recA frontier = recursiveExpand recB frontier) ∧
    (∀ s ∈ frontier, s ∈ recursiveExpand recA frontier) := by
  constructor
  · intro h
    unfold recursiveExpand
    rw [foldl_rec_congr recA recB _ _ h]
  · intro s hs
    unfold recursiveExpand sortStrings
    rw [List.mem_insertionSort]
    exact acc_sub_foldl recA _ frontier hs

/-- Witness for C7: a 12-entry frontier where the two providers differ
only on the 12th entry (beyond the cap) — the results coincide, and the
11th entry, never re-queried, still appears in the final list. -/
theorem c7_witness :
    recursiveExpand
        (fun s => if s == "k00" then some ["x.k00"] else none)
        ["k00", "k01", "k02", "k03", "k04", "k05", "k06", "k07", "k08", "k09", "k10", "k11"] =
      recursiveExpand
        (fun s => if s == "k11" then some ["zzz"] else if s == "k00" then some ["x.k00"] else none)
        ["k00", "k01", "k02", "k03", "k04", "k05", "k06", "k07", "k08", "k09", "k10", "k11"] ∧
    "k11" ∈ recursiveExpand
        (fun s => if s == "k00" then some ["x.k00"] else none)
        ["k00", "k01", "k02", "k03", "k04", "k05", "k06", "k07", "k08", "k09", "k10", "k11"] :=
  ⟨(c7_frontier_cap_and_carry_through
      (fun s => if s == "k00" then some ["x.k00"] else none)
      (fun s => if s == "k11" then some ["zzz"] else if s == "k00" then some ["x.k00"] else none)
      ["k00", "k01", "k02", "k03", "k04", "k05", "k06", "k07", "k08", "k09", "k10", "k11"]).1
      (by decide),
   (c7_frontier_cap_and_carry_through
      (fun s => if s == "k00" then some ["x.k00"] else none)
      (fun s => if s == "k11" then some ["zzz"] else if s == "k00" then some ["x.k00"] else none)
      ["k00", "k01", "k02", "k03", "k04", "k05", "k06", "k07", "k08", "k09", "k10", "k11"]).2
      "k11" (by decide)⟩

/-- C8 counterexample: the recursive probe context's ancestor chain is
exactly the background context, so directly cancelling the caller's
context (here a 120-second context derived from background) does not
cancel the probe — contradicting the claim that every recursive probe's
context is a child of the caller's context and is cancelled with it. -/
theorem c8_counterexample :
    cancelledUnder (fun c => decide (c = GoContext.withTimeout 0 GoContext.background 120))
        (mkRecursiveProbeCtx 1 30) = false ∧
    (mkRecursiveProbeCtx 1 30).ancestors = [GoContext.background] :=
  ⟨rfl, rfl⟩

/-- C8 amended: every recursive probe's context is derived directly from
the background context with its own deadline, so cancelling any other
non-background context (in particular the caller's) never cancels the
probe, while that context itself is cancelled, and the probe's own
cancellation never affects a context that does not descend from it (in
particular the caller and sibling probes). -/
theorem c8_amended_probe_ctx_independent (i : Nat) (t : Int) (p : GoContext)
    (hbg : p ≠ GoContext.background) (hne : p ≠ mkRecursiveProbeCtx i t)
    (hanc : mkRecursiveProbeCtx i t ∉ p.ancestors) :
    (mkRecursiveProbeCtx i t).ancestors = [GoContext.background] ∧
    cancelledUnder (fun c => decide (c = p)) (mkRecursiveProbeCtx i t) = false ∧
    cancelledUnder (fun c => decide (c = p)) p = true ∧
    cancelledUnder (fun c => decide (c = mkRecursiveProbeCtx i t)) p = false := by
  refine ⟨rfl, ?_, ?_, ?_⟩
  · have h1 : GoContext.withTimeout i GoContext.background t ≠ p := fun h => hne h.symm
    have h2 : GoContext.background ≠ p := Ne.symm hbg
    simp [cancelledUnder, mkRecursiveProbeCtx, GoContext.ancestors, h1, h2]
  · simp [cancelledUnder]
  · simp only [cancelledUnder, Bool.or_eq_false_iff]
    constructor
    · simpa using hne
    · rw [List.any_eq_false]
      intro x hx
      simp only [decide_eq_true_eq]
      intro hEq
      exact hanc (hEq ▸ hx)

/-- Witness for the amended C8: probe context with identity 1 and a
30-second budget against a caller context with identity 0 and a
120-second budget. -/
theorem c8_witness :
    (mkRecursiveProbeCtx 1 30).ancestors = [GoContext.background] ∧
    cancelledUnder (fun c => decide (c = GoContext.withTimeout 0 GoContext.background 120))
        (mkRecursiveProbeCtx 1 30) = false ∧
    cancelledUnder (fun c => decide (c = GoContext.withTimeout 0 GoContext.background 120))
        (GoContext.withTimeout 0 GoContext.background 120) = true ∧
    cancelledUnder (fun c => decide (c = mkRecursiveProbeCtx 1 30))
        (GoContext.withTimeout 0 GoContext.background 120) = false :=
  c8_amended_probe_ctx_independent 1 30 (GoContext.withTimeout 0 GoContext.background 120)
    (by decide) (by decide) (by decide)

/-- C9: optional arguments that are present but out of range (a numeric
timeout or maxDepth that is zero or negative, an empty-string source
filter) are treated exactly like absent arguments — the default
configuration results, the same as for wrong-typed optional arguments —
and the call proceeds with no protocol error. -/
theorem c9_out_of_range_optionals_defaulted
    (runEnum : String → SubfinderConfig → Except String (List String))
    (pcp d : String) (t m : Int) (hd : d ≠ "") (ht : t ≤ 0) (hm : m ≤ 0) :
    buildConfig pcp
        [("domain", JVal.str d), ("timeout", JVal.num t), ("maxDepth", JVal.num m),
         ("sourcesFilter", JVal.str ""), ("excludeSourcesFilter", JVal.str "")] =
      buildConfig pcp [("domain", JVal.str d)] ∧
    buildConfig pcp
        [("domain", JVal.str d), ("timeout", JVal.str "soon"), ("maxDepth", JVal.bool true),
         ("sourcesFilter", JVal.num 3), ("excludeSourcesFilter", JVal.arr [])] =
      buildConfig pcp [("domain", JVal.str d)] ∧
    (HandleToolsCall runEnum pcp
        { JSONRPC := "2.0", ID := some "1", Method := "tools.call",
          Params := some (JVal.obj
            [("name", JVal.str "enumerateSubdomains"),
             ("arguments", JVal.obj
               [("domain", JVal.str d), ("timeout", JVal.num t), ("maxDepth", JVal.num m),
                ("sourcesFilter", JVal.str ""), ("excludeSourcesFilter", JVal.str "")])]) }).Error
      = none := by
  refine ⟨?_, ?_, ?_⟩
  · simp [buildConfig, jLookup, not_lt.mpr ht, not_lt.mpr hm]
  · simp [buildConfig, jLookup]
  · cases henum : runEnum d (buildConfig pcp
        [("domain", JVal.str d), ("timeout", JVal.num t), ("maxDepth", JVal.num m),
         ("sourcesFilter", JVal.str ""), ("excludeSourcesFilter", JVal.str "")]) <;>
      simp [HandleToolsCall, decodeToolCallParams, jLookup, hd, henum]

/-- Witness for C9 at a zero timeout and a negative maxDepth. -/
theorem c9_witness :
    buildConfig ""
        [("domain", JVal.str "example.com"), ("timeout", JVal.num 0), ("maxDepth", JVal.num (-2)),
         ("sourcesFilter", JVal.str ""), ("excludeSourcesFilter", JVal.str "")] =
      buildConfig "" [("domain", JVal.str "example.com")] ∧
    buildConfig ""
        [("domain", JVal.str "example.com"), ("timeout", JVal.str "soon"), ("maxDepth", JVal.bool true),
         ("sourcesFilter", JVal.num 3), ("excludeSourcesFilter", JVal.arr [])] =
      buildConfig "" [("domain", JVal.str "example.com")] ∧
    (HandleToolsCall (fun _ _ => Except.error "x") ""
        { JSONRPC := "2.0", ID := some "1", Method := "tools.call",
          Params := some (JVal.obj
            [("name", JVal.str "enumerateSubdomains"),
             ("arguments", JVal.obj
               [("domain", JVal.str "example.com"), ("timeout", JVal.num 0),
                ("maxDepth", JVal.num (-2)), ("sourcesFilter", JVal.str ""),
                ("excludeSourcesFilter", JVal.str "")])]) }).Error = none :=
  c9_out_of_range_optionals_defaulted (fun _ _ => Except.error "x") "" "example.com" 0 (-2)
    (by decide) (by decide) (by decide)

/-- C10: for every initialize or tools.call request whose params value
cannot be decoded into the expected parameter object, the dispatcher
returns the Parse error (code -32700) with the request's id — not
Invalid params and not Invalid Request. -/
theorem c10_param_decode_failure_parse_error
    (runEnum : String → SubfinderConfig → Except String (List String))
    (pcp : String) (req : Request)
    (h : (req.Method = "initialize" ∧ decodeInitParams req.Params = none) ∨
         (req.Method = "tools.call" ∧ decodeToolCallParams req.Params = none)) :
    ProcessSingleRequest runEnum pcp req =
      { JSONRPC := "2.0", ID := req.ID, Result := none, Error := some ErrParse } ∧
    ErrParse.Code = -32700 ∧ ErrParse ≠ ErrInvalidParams ∧ ErrParse ≠ ErrInvalidRequest := by
  refine ⟨?_, rfl, by decide, by decide⟩
  rcases h with ⟨hm, hd⟩ | ⟨hm, hd⟩ <;>
    by_cases hj : req.JSONRPC == "" <;>
      simp [ProcessSingleRequest, hj, hm, HandleInit, HandleToolsCall, hd]

/-- Witness for C10 at an initialize request whose params is a string. -/
theorem c10_witness :
    ProcessSingleRequest (fun _ _ => Except.ok []) ""
        (Request.mk "2.0" (some "1") "initialize" (some (JVal.str "x"))) =
      { JSONRPC := "2.0", ID := some "1", Result := none, Error := some ErrParse } ∧
    ErrParse.Code = -32700 ∧ ErrParse ≠ ErrInvalidParams ∧ ErrParse ≠ ErrInvalidRequest :=
  c10_param_decode_failure_parse_error (fun _ _ => Except.ok []) ""
    (Request.mk "2.0" (some "1") "initialize" (some (JVal.str "x")))
    (Or.inl ⟨rfl, rfl⟩)

end MCPSubfinder
